import Mathlib

/-!
Shallow embedding of the core of the `lox` tree-walking interpreter
(sources: src/scanner.rs, src/token.rs, src/lox_type.rs, src/expression.rs,
src/statement.rs, src/parser.rs, src/environment.rs).

Modelling conventions, used throughout:
* Rust `f64` (`LoxNumber`) is modelled as exact rationals (`Rat`): every
  numeric literal the scanner accepts denotes a finite decimal, and the
  claims under study do not depend on rounding.  Division is the total
  division of `Rat` (so division by zero yields `0` where IEEE-754 yields
  an infinity or NaN); no claim distinguishes the two quotients, only
  whether an error is raised and whether the result is tagged `Number`.
* `HashMap<String, LoxType>` is modelled as an association list whose
  `insert` replaces an existing binding.
* Source text is a list of characters; the Rust scanner mixes byte offsets
  (`source.len()`, slicing) with a char iterator, which agree on the ASCII
  inputs the language is specified for.
* A Rust `panic!` / `.unwrap()` failure is the explicit error
  `ScanErr.unwrapPanic`; `lox_error!` (process exit with a runtime error
  message) is an explicit error value carrying the reported line and text.
* All recursion that is not structural in Rust (scanner restart, the
  recursive-descent parser, the tree-walking evaluator) takes an explicit
  fuel argument; exhausting fuel is the distinguished outcome `outOfFuel`,
  never confused with a genuine result.
-/

namespace Lox

/-- Rust: `pub type LoxNumber = f64;` (lox_type.rs).  Modelled as `Rat`. -/
abbrev LoxNumber := Rat

/-- Rust: `pub enum Keyword` (token.rs): reserved words plus a catch-all
`Identifier(name)`. -/
inductive Keyword where
  | and
  | breakK
  | continueK
  | classK
  | elseK
  | falseK
  | fun
  | forK
  | ifK
  | nilK
  | or
  | print
  | returnK
  | superK
  | thisK
  | trueK
  | var
  | whileK
  | identifier (name : String)
  deriving DecidableEq, Repr

/-- Rust: `impl From<&str> for Keyword` (token.rs). -/
def Keyword.fromString (s : String) : Keyword :=
  if s = "and" then .and
  else if s = "break" then .breakK
  else if s = "continue" then .continueK
  else if s = "class" then .classK
  else if s = "else" then .elseK
  else if s = "false" then .falseK
  else if s = "fun" then .fun
  else if s = "for" then .forK
  else if s = "if" then .ifK
  else if s = "nil" then .nilK
  else if s = "or" then .or
  else if s = "print" then .print
  else if s = "return" then .returnK
  else if s = "super" then .superK
  else if s = "this" then .thisK
  else if s = "true" then .trueK
  else if s = "var" then .var
  else if s = "while" then .whileK
  else .identifier s

/-- Rust: `pub struct TokenValue` (token.rs). -/
structure TokenValue where
  lexeme : String
  line : Nat
  deriving DecidableEq, Repr

/-- Rust: `pub struct TokenValueString` (token.rs). -/
structure TokenValueString where
  lexeme : String
  line : Nat
  value : String
  deriving DecidableEq, Repr

/-- Rust: `pub struct TokenValueNumber` (token.rs). -/
structure TokenValueNumber where
  lexeme : String
  line : Nat
  value : LoxNumber
  deriving DecidableEq, Repr

/-- Rust: `pub struct TokenValueKeyword` (token.rs). -/
structure TokenValueKeyword where
  lexeme : String
  line : Nat
  keyword : Keyword
  deriving DecidableEq, Repr

/-- Rust: `pub struct TokenValueEof` (token.rs). -/
structure TokenValueEof where
  line : Nat
  deriving DecidableEq, Repr

/-- Rust: `pub enum Token` (token.rs). -/
inductive Token where
  | leftParen (t : TokenValue)
  | rightParen (t : TokenValue)
  | leftBrace (t : TokenValue)
  | rightBrace (t : TokenValue)
  | comma (t : TokenValue)
  | dot (t : TokenValue)
  | minus (t : TokenValue)
  | plus (t : TokenValue)
  | semicolon (t : TokenValue)
  | slash (t : TokenValue)
  | star (t : TokenValue)
  | questionMark (t : TokenValue)
  | colon (t : TokenValue)
  | bang (t : TokenValue)
  | bangEqual (t : TokenValue)
  | equal (t : TokenValue)
  | equalEqual (t : TokenValue)
  | greater (t : TokenValue)
  | greaterEqual (t : TokenValue)
  | less (t : TokenValue)
  | lessEqual (t : TokenValue)
  | keyword (t : TokenValueKeyword)
  | string (t : TokenValueString)
  | number (t : TokenValueNumber)
  | eof (t : TokenValueEof)
  deriving DecidableEq, Repr

/-- Rust: `Token::line` (token.rs). -/
def Token.line : Token → Nat
  | .keyword t => t.line
  | .string t => t.line
  | .number t => t.line
  | .eof t => t.line
  | .leftParen t | .rightParen t | .leftBrace t | .rightBrace t | .comma t
  | .dot t | .minus t | .plus t | .semicolon t | .slash t | .star t
  | .questionMark t | .colon t | .bang t | .bangEqual t | .equal t
  | .equalEqual t | .greater t | .greaterEqual t | .less t | .lessEqual t => t.line

/-- Rust: `enum LiteralExprType` (expression.rs). -/
inductive LiteralExprType where
  | identifier (k : Keyword)
  | string (s : String)
  | number (n : LoxNumber)
  | eofLit
  deriving DecidableEq, Repr

/-- Rust: `enum Expr` and its payload structs (expression.rs).  Payload
structs are inlined as constructor fields with the Rust field names kept in
order. -/
inductive Expr where
  | assign (name : String) (value : Expr)
  | binary (left : Expr) (operator : Token) (right : Expr)
  | call (callee : Expr) (paren : Token) (arguments : List Expr)
  | get (object : Expr) (name : Token)
  | grouping (expression : Expr)
  | literal (value : LiteralExprType)
  | logical (left : Expr) (operator : Token) (right : Expr)
  | set (object : Expr) (name : Token) (value : Expr)
  | superE (kw : Token) (method : Token)
  | ternary (condition : Expr) (trueish : Expr) (falseish : Expr)
  | thisE (kw : Token)
  | unary (operator : Token) (right : Expr)
  | variable (name : String)

/- The value union, callables, environments and statements are mutually
recursive: a `LoxFunction` stores a `Statement` body and a closure
`Environment`, an environment stores `LoxType` values, and
`Statement::NativeFn` stores a host closure producing a `LoxType`
(modelled by the value it returns, its only use being the constant-shape
`clock`).  Rust sources: `enum LoxType`, `struct LoxFunction` (lox_type.rs),
`struct Environment` (environment.rs), `enum Statement` (statement.rs,
plus the `Function` case constructed in parser.rs). -/
mutual

inductive LoxType where
  | string (s : String)
  | number (n : LoxNumber)
  | boolean (b : Bool)
  | nil
  | unknown
  | function (f : LoxCallableV)

/-- Rust: `Arc<Mutex<dyn LoxCallable>>`, which at runtime is either a
`LoxFunction` or a `LoxNativeFunction` (lox_type.rs). -/
inductive LoxCallableV where
  | userFn (f : LoxFunction)
  | nativeFn (arity : Nat) (result : LoxType)

/-- Rust: `pub struct LoxFunction` (lox_type.rs). -/
inductive LoxFunction where
  | mk (name : String) (params : List Token) (body : Statement)
      (closure : Environment)

/-- Rust: `pub struct Environment` (environment.rs). -/
inductive Environment where
  | mk (enclosing : Option Environment) (values : List (String × LoxType))

/-- Rust: `enum Statement` (statement.rs).  The `function` case is the
`Statement::Function(FunctionStatement)` constructed by parser.rs (its
`FunctionStatement` payload: name, params as tokens, body as a statement
list); statement.rs's evaluator snapshot predates it and has no arm for
it. -/
inductive Statement where
  | expression (e : Expr)
  | print (e : Expr)
  | var (name : String) (init : Option Expr)
  | block (stmts : List Statement)
  | ifS (condition : Expr) (thenBranch : Statement)
      (elseBranch : Option Statement)
  | whileS (condition : Expr) (body : Statement) (inForLoop : Bool)
  | breakS
  | continueS
  | nativeFn (result : LoxType)
  | function (name : String) (params : List Token) (body : List Statement)

end

/-- Rust: `StatementSignal` (statement.rs).  The `Return` payload is
`Option LoxType`: lox_type.rs (`rv.unwrap_or(LoxType::Nil)`) and the spec
(`Return(optional value)`) both treat the returned value as optional, while
the statement.rs snapshot declares it non-optional; the optional form is
the one the claims cite. -/
inductive StatementSignal where
  | breakSig
  | continueSig
  | returnSig (rv : Option LoxType)

/-- Rust: `LoxType::is_truthy` (lox_type.rs lines 42-49). -/
def LoxType.is_truthy : LoxType → Bool
  | .boolean b => b
  | .nil => false
  | .number n => decide (n ≠ 0)
  | _ => true

/-- Model of `core::mem::discriminant` on `LoxType`: the constructor tag,
ignoring payloads. -/
def LoxType.discriminant : LoxType → Nat
  | .string _ => 0
  | .number _ => 1
  | .boolean _ => 2
  | .nil => 3
  | .unknown => 4
  | .function _ => 5

/-- Rust: `impl PartialEq for LoxType` (lox_type.rs lines 65-74): structural
equality for same-tag String/Number/Boolean pairs, and discriminant
comparison for every other pair. -/
def loxEq : LoxType → LoxType → Bool
  | .string l0, .string r0 => l0 == r0
  | .number l0, .number r0 => decide (l0 = r0)
  | .boolean l0, .boolean r0 => l0 == r0
  | l, r => l.discriminant == r.discriminant

/-- A runtime error as reported by `lox_error!`: the 1-based source line
when the call site formats one (`[line N] Error: ...`) and the message
text.  Error messages reproduce the Rust format strings with the
single-quote characters around interpolated names omitted. -/
structure RuntimeError where
  line : Option Nat
  msg : String
  deriving DecidableEq, Repr

/-- Outcome of evaluating an expression: a value, a reported runtime error
(`lox_error!`, which exits the process), a Rust panic (`unwrap` /
`unreachable!`), or fuel exhaustion (a model artifact, never a program
behaviour). -/
inductive ExprRes where
  | val (v : LoxType)
  | rt (e : RuntimeError)
  | panicked
  | outOfFuel

/-- Outcome of executing a statement: normal completion, a propagating
`StatementSignal`, a runtime error, a panic, or fuel exhaustion. -/
inductive StmtRes where
  | ok
  | sig (s : StatementSignal)
  | rt (e : RuntimeError)
  | panicked
  | outOfFuel

/-- The interpreter state threaded through evaluation: the (global)
environment chain and the values printed so far (statement.rs prints
`to_string(value)`; the model records the value itself, as no claim
depends on number formatting). -/
structure EvalState where
  env : Environment
  output : List LoxType

/-- `HashMap::insert`: replace the binding of an existing key, else add
one. -/
def envInsert : List (String × LoxType) → String → LoxType →
    List (String × LoxType)
  | [], n, v => [(n, v)]
  | (k, w) :: rest, n, v =>
      if k = n then (n, v) :: rest else (k, w) :: envInsert rest n v

/-- `HashMap::get` on the association-list model. -/
def envLookup : List (String × LoxType) → String → Option LoxType
  | [], _ => none
  | (k, w) :: rest, n => if k = n then some w else envLookup rest n

/-- Rust: `Environment::define` (environment.rs): unconditionally set in
the current frame. -/
def Environment.define : Environment → String → LoxType → Environment
  | .mk enc vs, n, v => .mk enc (envInsert vs n v)

/-- Rust: `Environment::get` (environment.rs): search outward from the
innermost frame; `none` models the `lox_error!` "Undefined variable"
failure at the outermost frame. -/
def Environment.get : Environment → String → Option LoxType
  | .mk enc vs, n =>
      match envLookup vs n with
      | some v => some v
      | none =>
          match enc with
          | some e => e.get n
          | none => none

/-- Rust: `Environment::assign` (environment.rs): overwrite the first match
searching outward; `none` models the "Undefined variable" failure. -/
def Environment.assign : Environment → String → LoxType → Option Environment
  | .mk enc vs, n, v =>
      match envLookup vs n with
      | some _ => some (.mk enc (envInsert vs n v))
      | none =>
          match enc with
          | some e =>
              match e.assign n v with
              | some e2 => some (.mk (some e2) vs)
              | none => none
          | none => none

/-- Pushing a block frame (statement.rs `Statement::Block` prologue): a
fresh empty frame enclosing the previous innermost. -/
def Environment.push (e : Environment) : Environment := .mk (some e) []

/-- Popping a block frame (statement.rs `Statement::Block` epilogue):
`guard.enclosing.take()` restores the parent when there is one. -/
def Environment.pop : Environment → Environment
  | .mk (some e) _ => e
  | .mk none vs => .mk none vs

/-- Display string of a number (`n.to_string()` in the String+Number arms
of `+`).  Modelled from the spec: number-to-string formatting is not
pinned by the source (spec §9); the model uses the `Rat` rendering. -/
def numToDisplay (n : LoxNumber) : String := toString n

/-- Rust: arity of a callable (`LoxCallable::arity`, lox_type.rs): a user
function's parameter count, a native function's stored arity. -/
def LoxCallableV.arity : LoxCallableV → Nat
  | .userFn (.mk _ params _ _) => params.length
  | .nativeFn a _ => a

/-- Rust: the operator dispatch of `Expr::eval`'s `Binary` arm
(expression.rs lines 127-194), applied after both operands have been
evaluated.  The final `_ => unreachable!()` is the panic outcome. -/
def binaryOpEval (operator : Token) (left right : LoxType) : ExprRes :=
  match operator with
  | .greater _ =>
      match left, right with
      | .number ln, .number rn => .val (.boolean (decide (ln > rn)))
      | _, _ => .rt ⟨some operator.line, "Cannot compare NaNs"⟩
  | .greaterEqual _ =>
      match left, right with
      | .number ln, .number rn => .val (.boolean (decide (ln ≥ rn)))
      | _, _ => .rt ⟨some operator.line, "Cannot compare NaNs"⟩
  | .less _ =>
      match left, right with
      | .number ln, .number rn => .val (.boolean (decide (ln < rn)))
      | _, _ => .rt ⟨some operator.line, "Cannot compare NaNs"⟩
  | .lessEqual _ =>
      match left, right with
      | .number ln, .number rn => .val (.boolean (decide (ln ≤ rn)))
      | _, _ => .rt ⟨some operator.line, "Cannot compare NaNs"⟩
  | .bangEqual _ => .val (.boolean (!loxEq left right))
  | .equalEqual _ => .val (.boolean (loxEq left right))
  | .minus _ =>
      match left, right with
      | .number ln, .number rn => .val (.number (ln - rn))
      | _, _ => .rt ⟨some operator.line, "Cannot subtract NaNs"⟩
  | .plus _ =>
      match left, right with
      | .number ln, .number rn => .val (.number (ln + rn))
      | .string ls, .string rs => .val (.string (ls ++ rs))
      | .string ls, .number rn => .val (.string (ls ++ numToDisplay rn))
      | .number ln, .string rs => .val (.string (numToDisplay ln ++ rs))
      | _, _ => .rt ⟨some operator.line, "Incompatible addition types"⟩
  | .slash _ =>
      match left, right with
      | .number ln, .number rn => .val (.number (ln / rn))
      | _, _ => .rt ⟨some operator.line, "Cannot divide NaNs"⟩
  | .star _ =>
      match left, right with
      | .number ln, .number rn => .val (.number (ln * rn))
      | _, _ => .rt ⟨some operator.line, "Cannot multiply NaNs"⟩
  | _ => .panicked

/-- Rust: `LoxFunction::call` epilogue (lox_type.rs lines 110-120): map the
body's outcome to the call's result.  `Ok` and `Return(None)` yield `Nil`,
`Return(Some v)` yields `v`, and a `Break`/`Continue` signal reaching the
call boundary is the runtime error reported with the call-site line.
Runtime errors and panics raised inside the body have already ended the
process and pass through; so does fuel exhaustion. -/
def functionCallResult (res : StmtRes) (line : Nat) : ExprRes :=
  match res with
  | .ok => .val .nil
  | .sig (.returnSig rv) => .val (rv.getD .nil)
  | .sig _ =>
      .rt ⟨some line, "Function terminated with an unexpected token."⟩
  | .rt e => .rt e
  | .panicked => .panicked
  | .outOfFuel => .outOfFuel

/-- Rust: parameter binding in `LoxFunction::call` (lox_type.rs lines
94-105): each parameter token must be an identifier keyword
(`unreachable!` otherwise), bound positionally; `args[i]` on a missing
argument is an index panic (the arity check in the caller prevents it). -/
def bindParams : List Token → List LoxType → Environment →
    Option Environment
  | [], _, env => some env
  | .keyword k :: ps, a :: rest, env =>
      match k.keyword with
      | .identifier n => bindParams ps rest (env.define n a)
      | _ => none
  | _ :: _, _, _ => none

/- The tree-walking evaluator: `Expr::eval` (expression.rs lines 113-295),
`Statement::eval` (statement.rs lines 66-161) and callable invocation
(`LoxCallable::call`, lox_type.rs lines 86-136).  Rust keeps the
environment in a global; the model threads it through `EvalState`.  Every
function takes fuel and returns `outOfFuel` at zero, so that the mutual
recursion (statements contain expressions, calls run statement bodies,
loops iterate) is total. -/
mutual

/-- Rust: `Expr::eval` (expression.rs). -/
def evalExpr : Nat → Expr → EvalState → ExprRes × EvalState
  | 0, _, st => (.outOfFuel, st)
  | f + 1, e, st =>
      match e with
      | .assign name value =>
          match evalExpr f value st with
          | (.val v, st1) =>
              match st1.env.assign name v with
              | some env2 => (.val v, { st1 with env := env2 })
              | none =>
                  (.rt ⟨none, "Undefined variable " ++ name⟩, st1)
          | r => r
      | .binary left operator right =>
          match evalExpr f left st with
          | (.val lv, st1) =>
              match evalExpr f right st1 with
              | (.val rv, st2) => (binaryOpEval operator lv rv, st2)
              | r => r
          | r => r
      | .call callee paren arguments =>
          match evalExpr f callee st with
          | (.val cv, st1) =>
              match evalArgs f arguments st1 with
              | (.ok args, st2) =>
                  match cv with
                  | .function fn =>
                      if args.length ≠ fn.arity then
                        let n := fn.arity
                        let m := args.length
                        (.rt ⟨some paren.line,
                          s!"Expected {n} arguments but got {m}."⟩, st2)
                      else
                        callCallable f fn args paren.line st2
                  | _ =>
                      (.rt ⟨some paren.line,
                        "Can only call functions and classes."⟩, st2)
              | (.error r, st2) => (r, st2)
          | r => r
      | .get _ _ => (.val .unknown, st)
      | .grouping inner => evalExpr f inner st
      | .literal v =>
          match v with
          | .identifier k =>
              match k with
              | .trueK => (.val (.boolean true), st)
              | .falseK => (.val (.boolean false), st)
              | .nilK => (.val .nil, st)
              | _ => (.val .unknown, st)
          | .number n => (.val (.number n), st)
          | .string s => (.val (.string s), st)
          | .eofLit => (.val .unknown, st)
      | .logical left operator right =>
          match evalExpr f left st with
          | (.val lv, st1) =>
              match operator with
              | .keyword k =>
                  match k.keyword with
                  | .or =>
                      if lv.is_truthy then (.val lv, st1)
                      else evalExpr f right st1
                  | _ =>
                      if !lv.is_truthy then (.val lv, st1)
                      else evalExpr f right st1
              | _ =>
                  if !lv.is_truthy then (.val lv, st1)
                  else evalExpr f right st1
          | r => r
      | .set _ _ _ => (.val .unknown, st)
      | .superE _ _ => (.val .unknown, st)
      | .ternary condition trueish falseish =>
          match evalExpr f condition st with
          | (.val cv, st1) =>
              match evalExpr f trueish st1 with
              | (.val tv, st2) =>
                  match evalExpr f falseish st2 with
                  | (.val fv, st3) =>
                      if cv.is_truthy then (.val tv, st3)
                      else (.val fv, st3)
                  | r => r
              | r => r
          | r => r
      | .thisE _ => (.val .unknown, st)
      | .unary operator right =>
          match evalExpr f right st with
          | (.val rv, st1) =>
              match operator with
              | .bang _ => (.val (.boolean (!rv.is_truthy)), st1)
              | .minus _ =>
                  match rv with
                  | .number n => (.val (.number (-n)), st1)
                  | _ => (.rt ⟨none, "Cannot negate NaNs"⟩, st1)
              | _ => (.panicked, st1)
          | r => r
      | .variable name =>
          match st.env.get name with
          | some v => (.val v, st)
          | none => (.rt ⟨none, "Undefined variable " ++ name ++ "."⟩, st)

termination_by structural fuel _ _ => fuel

/-- Argument evaluation in `Expr::eval`'s `Call` arm: left-to-right,
stopping at the first non-value outcome. -/
def evalArgs : Nat → List Expr → EvalState →
    Except ExprRes (List LoxType) × EvalState
  | 0, _, st => (.error .outOfFuel, st)
  | _ + 1, [], st => (.ok [], st)
  | f + 1, e :: es, st =>
      match evalExpr f e st with
      | (.val v, st1) =>
          match evalArgs f es st1 with
          | (.ok vs, st2) => (.ok (v :: vs), st2)
          | r => r
      | (r, st1) => (.error r, st1)

termination_by structural fuel _ _ => fuel

/-- Rust: `<LoxFunction as LoxCallable>::call` and
`<LoxNativeFunction as LoxCallable>::call` (lox_type.rs).  For a user
function: clone the closure, define the function's own name in it (for
recursion), build the call frame on top of it seeded with the caller
frame's bindings (`Environment::new(Some(closure), env.values.clone())`),
bind the parameters, run the body, and map the outcome through
`functionCallResult`.  The caller's environment is returned unchanged:
`closure.reset` (absent from src/) updates the shared closure frames,
which a claim never observes here.  A native function returns its stored
result. -/
def callCallable : Nat → LoxCallableV → List LoxType → Nat → EvalState →
    ExprRes × EvalState
  | 0, _, _, _, st => (.outOfFuel, st)
  | f + 1, cv, args, line, st =>
      match cv with
      | .nativeFn _ result => (.val result, st)
      | .userFn fn =>
          match fn with
          | .mk name params body closure =>
              let closure1 :=
                closure.define name (.function (.userFn fn))
              let callBase : Environment :=
                match st.env with
                | .mk _ vs => .mk (some closure1) vs
              match bindParams params args callBase with
              | none => (.panicked, st)
              | some callEnv =>
                  match evalStmt f body { st with env := callEnv } with
                  | (res, st1) =>
                      (functionCallResult res line,
                        { st1 with env := st.env })

termination_by structural fuel _ _ _ _ => fuel

/-- Rust: `Statement::eval` (statement.rs). -/
def evalStmt : Nat → Statement → EvalState → StmtRes × EvalState
  | 0, _, st => (.outOfFuel, st)
  | f + 1, s, st =>
      match s with
      | .expression e =>
          match evalExpr f e st with
          | (.val _, st1) => (.ok, st1)
          | (.rt er, st1) => (.rt er, st1)
          | (.panicked, st1) => (.panicked, st1)
          | (.outOfFuel, st1) => (.outOfFuel, st1)
      | .print e =>
          match evalExpr f e st with
          | (.val v, st1) => (.ok, { st1 with output := st1.output ++ [v] })
          | (.rt er, st1) => (.rt er, st1)
          | (.panicked, st1) => (.panicked, st1)
          | (.outOfFuel, st1) => (.outOfFuel, st1)
      | .var name init =>
          match init with
          | none => (.ok, { st with env := st.env.define name .nil })
          | some e =>
              match evalExpr f e st with
              | (.val v, st1) => (.ok, { st1 with env := st1.env.define name v })
              | (.rt er, st1) => (.rt er, st1)
              | (.panicked, st1) => (.panicked, st1)
              | (.outOfFuel, st1) => (.outOfFuel, st1)
      | .block stmts =>
          evalBlockBody f stmts { st with env := st.env.push }
      | .ifS condition thenBranch elseBranch =>
          match evalExpr f condition st with
          | (.val cv, st1) =>
              if cv.is_truthy then
                match evalStmt f thenBranch st1 with
                | (.ok, st2) => (.ok, st2)
                | r => r
              else
                match elseBranch with
                | some eb =>
                    match evalStmt f eb st1 with
                    | (.ok, st2) => (.ok, st2)
                    | r => r
                | none => (.ok, st1)
          | (.rt er, st1) => (.rt er, st1)
          | (.panicked, st1) => (.panicked, st1)
          | (.outOfFuel, st1) => (.outOfFuel, st1)
      | .whileS condition body inForLoop =>
          evalWhileLoop f condition body inForLoop st
      | .breakS => (.sig .breakSig, st)
      | .continueS => (.sig .continueSig, st)
      | .nativeFn result => (.sig (.returnSig (some result)), st)
      | .function _ _ _ => (.ok, st)

termination_by structural fuel _ _ => fuel

/-- The statement loop of `Statement::eval`'s `Block` arm (statement.rs
lines 101-119), run after the fresh frame is pushed: the frame is popped
on normal completion and before a signal propagates; a runtime error or
panic ends the process with no pop. -/
def evalBlockBody : Nat → List Statement → EvalState → StmtRes × EvalState
  | 0, _, st => (.outOfFuel, st)
  | _ + 1, [], st => (.ok, { st with env := st.env.pop })
  | f + 1, s :: rest, st =>
      match evalStmt f s st with
      | (.ok, st1) => evalBlockBody f rest st1
      | (.sig sg, st1) => (.sig sg, { st1 with env := st1.env.pop })
      | (.rt er, st1) => (.rt er, st1)
      | (.panicked, st1) => (.panicked, st1)
      | (.outOfFuel, st1) => (.outOfFuel, st1)

termination_by structural fuel _ _ => fuel

/-- Rust: the `while` loop of `Statement::eval`'s `While` arm (statement.rs
lines 130-153).  `Break` exits with `Ok`; on `Continue` with the
`in_for_loop` flag and a `Block` body the block's last statement
(`loop_block.last().unwrap()`, a panic when the block is empty) is
evaluated with its `Result` discarded before looping; `Return` propagates
out. -/
def evalWhileLoop : Nat → Expr → Statement → Bool → EvalState →
    StmtRes × EvalState
  | 0, _, _, _, st => (.outOfFuel, st)
  | f + 1, condition, body, inForLoop, st =>
      match evalExpr f condition st with
      | (.val cv, st1) =>
          if cv.is_truthy then
            match evalStmt f body st1 with
            | (.ok, st2) => evalWhileLoop f condition body inForLoop st2
            | (.sig .breakSig, st2) => (.ok, st2)
            | (.sig .continueSig, st2) =>
                if inForLoop then
                  match body with
                  | .block loopBlock =>
                      match loopBlock.getLast? with
                      | none => (.panicked, st2)
                      | some lastStmt =>
                          match evalStmt f lastStmt st2 with
                          | (.rt er, st3) => (.rt er, st3)
                          | (.panicked, st3) => (.panicked, st3)
                          | (.outOfFuel, st3) => (.outOfFuel, st3)
                          | (_, st3) =>
                              evalWhileLoop f condition body inForLoop st3
                  | _ => evalWhileLoop f condition body inForLoop st2
                else
                  evalWhileLoop f condition body inForLoop st2
            | (.sig (.returnSig rv), st2) => (.sig (.returnSig rv), st2)
            | (.rt er, st2) => (.rt er, st2)
            | (.panicked, st2) => (.panicked, st2)
            | (.outOfFuel, st2) => (.outOfFuel, st2)
          else
            (.ok, st1)
      | (.rt er, st1) => (.rt er, st1)
      | (.panicked, st1) => (.panicked, st1)
      | (.outOfFuel, st1) => (.outOfFuel, st1)

termination_by structural fuel _ _ _ _ => fuel

end

/- The scanner (scanner.rs).  The peekable char iterator and the `current`
offset move in lockstep (`advance` is the only consumer of either), so the
state keeps `current` alone; `chars.next().unwrap()` on an exhausted
iterator is the panic `ScanErr.unwrapPanic`. -/

/-- Rust: the fields of `struct Scanner` (scanner.rs); `errors` collects
`CompileError`s as (line, message). -/
structure ScanState where
  source : List Char
  atTheEnd : Bool
  errors : List (Nat × String)
  start : Nat
  current : Nat
  line : Nat
  deriving DecidableEq, Repr

/-- A scan that did not complete: a Rust panic, or fuel exhaustion (model
artifact). -/
inductive ScanErr where
  | unwrapPanic
  | outOfFuel
  deriving DecidableEq, Repr

/-- Rust: `Scanner::new` (scanner.rs lines 26-37): `at_the_end` starts as
`source.is_empty()`. -/
def mkScanner (src : List Char) : ScanState :=
  { source := src, atTheEnd := src.isEmpty, errors := [],
    start := 0, current := 0, line := 1 }

/-- Rust: `Scanner::is_at_end` (scanner.rs lines 39-47): compares `current`
against the source length and, at the end, also sets the `at_the_end`
flag as a side effect. -/
def ScanState.isAtEnd (st : ScanState) : Bool × ScanState :=
  if st.current ≥ st.source.length then (true, { st with atTheEnd := true })
  else (false, st)

/-- Rust: `Scanner::is_alpha`. -/
def isAlphaChar (c : Char) : Bool :=
  (decide ('a' ≤ c) && decide (c ≤ 'z'))
    || (decide ('A' ≤ c) && decide (c ≤ 'Z')) || c == '_'

/-- Rust: `Scanner::is_alphanumeric`. -/
def isAlphanumericChar (c : Char) : Bool :=
  isAlphaChar c || c.isDigit

/-- Rust: `Scanner::peek`: the next unconsumed character, NUL at the
end. -/
def ScanState.peek (st : ScanState) : Char :=
  (st.source.get? st.current).getD '\x00'

/-- Rust: `Scanner::peek_next`: the character after the next one, NUL when
missing. -/
def ScanState.peekNext (st : ScanState) : Char :=
  (st.source.get? (st.current + 1)).getD '\x00'

/-- Rust: `Scanner::advance`: consume one character;
`chars.next().unwrap()` panics past the end. -/
def ScanState.advance (st : ScanState) : Except ScanErr (Char × ScanState) :=
  match st.source.get? st.current with
  | some c => .ok (c, { st with current := st.current + 1 })
  | none => .error .unwrapPanic

/-- Rust: `Scanner::get_token_value`: lexeme `source[start..current]` and
the current line. -/
def ScanState.tokenValue (st : ScanState) : TokenValue :=
  { lexeme := String.mk ((st.source.drop st.start).take (st.current - st.start)),
    line := st.line }

/-- The `source[a..b]` slice as a string. -/
def sliceStr (src : List Char) (a b : Nat) : String :=
  String.mk ((src.drop a).take (b - a))

/-- Rust: `Scanner::matching` (scanner.rs lines 143-154): false at the end
(`is_at_end` sets the flag as a side effect) or on a mismatch, else
consume the expected character. -/
def ScanState.matching (st : ScanState) (expected : Char) :
    Bool × ScanState :=
  match st.isAtEnd with
  | (true, st1) => (false, st1)
  | (false, st1) =>
      if st1.peek ≠ expected then (false, st1)
      else (true, { st1 with current := st1.current + 1 })

/-- Decimal digits to a natural number. -/
def digitsToNat (cs : List Char) : Nat :=
  cs.foldl (fun a c => a * 10 + (c.toNat - 48)) 0

/-- Rust: `lexeme.parse::<f64>().unwrap()` on a scanner number lexeme
(digits with an optional fractional part), as an exact rational. -/
def parseDecimal (cs : List Char) : LoxNumber :=
  let intPart := cs.takeWhile (fun c => c ≠ '.')
  let rest := cs.dropWhile (fun c => c ≠ '.')
  match rest with
  | _ :: frac =>
      (digitsToNat intPart : Rat) + (digitsToNat frac : Rat) / 10 ^ frac.length
  | [] => (digitsToNat intPart : Rat)

/-- The digit-consuming loops of `Scanner::number` (`while
self.peek().is_digit(10)`). -/
def scanDigits : Nat → ScanState → Except ScanErr ScanState
  | 0, _ => .error .outOfFuel
  | f + 1, st =>
      if st.peek.isDigit then
        match st.advance with
        | .ok (_, st1) => scanDigits f st1
        | .error e => .error e
      else .ok st

/-- Rust: `Scanner::number` (scanner.rs lines 73-93). -/
def scanNumber (f : Nat) (st : ScanState) :
    Except ScanErr (Token × ScanState) :=
  match scanDigits f st with
  | .error e => .error e
  | .ok st1 =>
      if st1.peek = '.' && st1.peekNext.isDigit then
        match st1.advance with
        | .error e => .error e
        | .ok (_, st2) =>
            match scanDigits f st2 with
            | .error e => .error e
            | .ok st3 =>
                .ok (.number
                  { lexeme := sliceStr st3.source st3.start st3.current,
                    line := st3.line,
                    value := parseDecimal
                      ((st3.source.drop st3.start).take (st3.current - st3.start)) },
                  st3)
      else
        .ok (.number
          { lexeme := sliceStr st1.source st1.start st1.current,
            line := st1.line,
            value := parseDecimal
              ((st1.source.drop st1.start).take (st1.current - st1.start)) },
          st1)

/-- The loop of `Scanner::string` (`while self.peek() != KW_QUOTE &&
!self.is_at_end()`): the quote check short-circuits the mutating
`is_at_end`; a newline in the literal bumps the line counter. -/
def scanStringLoop : Nat → ScanState → Except ScanErr ScanState
  | 0, _ => .error .outOfFuel
  | f + 1, st =>
      if st.peek ≠ '"' then
        match st.isAtEnd with
        | (true, st1) => .ok st1
        | (false, st1) =>
            let st2 :=
              if st1.peek = '\n' then { st1 with line := st1.line + 1 } else st1
            match st2.advance with
            | .ok (_, st3) => scanStringLoop f st3
            | .error e => .error e
      else .ok st

/-- Rust: `Scanner::string` (scanner.rs lines 95-119): `none` is the
unterminated-string case, which records a lexical error and produces no
token. -/
def scanString (f : Nat) (st : ScanState) :
    Except ScanErr (Option Token × ScanState) :=
  match scanStringLoop f st with
  | .error e => .error e
  | .ok st1 =>
      match st1.isAtEnd with
      | (true, st2) =>
          .ok (none,
            { st2 with
              errors := st2.errors ++ [(st2.line, "Unterminated string literal.")] })
      | (false, st2) =>
          match st2.advance with
          | .error e => .error e
          | .ok (_, st3) =>
              .ok (some (.string
                { lexeme := sliceStr st3.source st3.start st3.current,
                  line := st3.line,
                  value := sliceStr st3.source (st3.start + 1) (st3.current - 1) }),
                st3)

/-- The loop of `Scanner::identifier` (`while
self.is_alphanumeric(c)`). -/
def scanIdentLoop : Nat → ScanState → Except ScanErr ScanState
  | 0, _ => .error .outOfFuel
  | f + 1, st =>
      if isAlphanumericChar st.peek then
        match st.advance with
        | .ok (_, st1) => scanIdentLoop f st1
        | .error e => .error e
      else .ok st

/-- Rust: `Scanner::identifier` (scanner.rs lines 121-134): accumulate the
word and classify it against the keyword table. -/
def scanIdentifier (f : Nat) (st : ScanState) :
    Except ScanErr (Token × ScanState) :=
  match scanIdentLoop f st with
  | .error e => .error e
  | .ok st1 =>
      .ok (.keyword
        { lexeme := sliceStr st1.source st1.start st1.current,
          line := st1.line,
          keyword := Keyword.fromString (sliceStr st1.source st1.start st1.current) },
        st1)

/-- The line-comment loop (`while self.peek() != NEWLINE &&
!self.is_at_end()`). -/
def lineCommentLoop : Nat → ScanState → Except ScanErr ScanState
  | 0, _ => .error .outOfFuel
  | f + 1, st =>
      if st.peek ≠ '\n' then
        match st.isAtEnd with
        | (true, st1) => .ok st1
        | (false, st1) =>
            match st1.advance with
            | .ok (_, st2) => lineCommentLoop f st2
            | .error e => .error e
      else .ok st

/-- The block-comment loop as written in scanner.rs line 225: `while
self.peek() != STAR && self.peek_next() != SLASH && !self.is_at_end()` —
the conjuncts short-circuit left to right, so the loop already stops when
the next character is a star OR the character after it is a slash. -/
def blockCommentLoop : Nat → ScanState → Except ScanErr ScanState
  | 0, _ => .error .outOfFuel
  | f + 1, st =>
      if st.peek ≠ '*' then
        if st.peekNext ≠ '/' then
          match st.isAtEnd with
          | (true, st1) => .ok st1
          | (false, st1) =>
              match st1.advance with
              | .ok (_, st2) => blockCommentLoop f st2
              | .error e => .error e
        else .ok st
      else .ok st

/-- Rust: the body of `<Scanner as Iterator>::next` (scanner.rs lines
160-276) after the `self.start = self.current` prologue: one token, `none`
past the end.  Skipping branches (whitespace, comments, failed literals,
lexical errors) restart via recursion through the prologue, as in the
source. -/
def nextTokCore : Nat → ScanState → Except ScanErr (Option Token × ScanState)
  | 0, _ => .error .outOfFuel
  | f + 1, st =>
      if st.atTheEnd then .ok (none, st)
      else
        match st.isAtEnd with
        | (true, stA) => .ok (some (.eof { line := stA.line }), { stA with atTheEnd := true })
        | (false, stA) =>
            match stA.advance with
            | .error e => .error e
            | .ok (c, st1) =>
                match c with
                | '(' => .ok (some (.leftParen st1.tokenValue), st1)
                | ')' => .ok (some (.rightParen st1.tokenValue), st1)
                | '\x7b' => .ok (some (.leftBrace st1.tokenValue), st1)
                | '\x7d' => .ok (some (.rightBrace st1.tokenValue), st1)
                | ',' => .ok (some (.comma st1.tokenValue), st1)
                | '.' => .ok (some (.dot st1.tokenValue), st1)
                | '-' => .ok (some (.minus st1.tokenValue), st1)
                | '+' => .ok (some (.plus st1.tokenValue), st1)
                | ';' => .ok (some (.semicolon st1.tokenValue), st1)
                | '*' => .ok (some (.star st1.tokenValue), st1)
                | '?' => .ok (some (.questionMark st1.tokenValue), st1)
                | ':' => .ok (some (.colon st1.tokenValue), st1)
                | '!' =>
                  (match st1.matching '=' with
                  | (true, st2) => .ok (some (.bangEqual st2.tokenValue), st2)
                  | (false, st2) => .ok (some (.bang st2.tokenValue), st2))
                | '=' =>
                  (match st1.matching '=' with
                  | (true, st2) => .ok (some (.equalEqual st2.tokenValue), st2)
                  | (false, st2) => .ok (some (.equal st2.tokenValue), st2))
                | '<' =>
                  (match st1.matching '=' with
                  | (true, st2) => .ok (some (.lessEqual st2.tokenValue), st2)
                  | (false, st2) => .ok (some (.less st2.tokenValue), st2))
                | '>' =>
                  (match st1.matching '=' with
                  | (true, st2) => .ok (some (.greaterEqual st2.tokenValue), st2)
                  | (false, st2) => .ok (some (.greater st2.tokenValue), st2))
                | '/' =>
                  (match st1.matching '/' with
                  | (true, st2) =>
                      (match lineCommentLoop f st2 with
                      | .ok st3 => nextTokCore f { st3 with start := st3.current }
                      | .error e => .error e)
                  | (false, st2) =>
                      match st2.matching '*' with
                      | (true, st3) =>
                          (match blockCommentLoop f st3 with
                          | .error e => .error e
                          | .ok st4 =>
                              match st4.advance with
                              | .error e => .error e
                              | .ok (_, st5) =>
                                  match st5.advance with
                                  | .error e => .error e
                                  | .ok (_, st6) =>
                                      nextTokCore f { st6 with start := st6.current })
                      | (false, st3) => .ok (some (.slash st3.tokenValue), st3))
                | ' ' | '\r' | '\t' =>
                  nextTokCore f { st1 with start := st1.current }
                | '\n' =>
                  nextTokCore f
                    { st1 with line := st1.line + 1, start := st1.current }
                | '"' =>
                  (match scanString f st1 with
                  | .error e => .error e
                  | .ok (some t, st2) => .ok (some t, st2)
                  | .ok (none, st2) =>
                      nextTokCore f { st2 with start := st2.current })
                | '1' | '2' | '3' | '4' | '5' | '6' | '7' | '8' | '9' | '0' =>
                  (match scanNumber f st1 with
                  | .error e => .error e
                  | .ok (t, st2) => .ok (some t, st2))
                | _ =>
                  if isAlphaChar c then
                    match scanIdentifier f st1 with
                    | .error e => .error e
                    | .ok (t, st2) => .ok (some t, st2)
                  else
                    nextTokCore f
                      { st1 with
                        start := st1.current,
                        errors := st1.errors ++
                          [(st1.line, "Unexpected character " ++ c.toString ++ ".")] }

/-- Rust: `<Scanner as Iterator>::next`: set `start = current`, then run
the dispatch body. -/
def nextTok (f : Nat) (st0 : ScanState) :
    Except ScanErr (Option Token × ScanState) :=
  nextTokCore f { st0 with start := st0.current }

/-- Iterating the scanner to exhaustion: collect tokens until `next`
returns `none`. -/
def scanToList : Nat → ScanState → Except ScanErr (List Token)
  | 0, _ => .error .outOfFuel
  | f + 1, st =>
      match nextTok f st with
      | .error e => .error e
      | .ok (none, _) => .ok []
      | .ok (some t, st1) =>
          match scanToList f st1 with
          | .error e => .error e
          | .ok rest => .ok (t :: rest)

/-- Scan a source text from a fresh scanner. -/
def scanSource (f : Nat) (src : List Char) : Except ScanErr (List Token) :=
  scanToList f (mkScanner src)

/-- End-of-file token recognizer. -/
def isEofTok : Token → Bool
  | .eof _ => true
  | _ => false

/-- A token list in which an `Eof` can only occur as the very last
element (so: at most one `Eof`, and only in final position). -/
def eofOnlyLast : List Token → Bool
  | [] => true
  | t :: rest => if isEofTok t then rest.isEmpty else eofOnlyLast rest

/-- The property the spec asserts of every scan: the list is nonempty,
ends with an `Eof`, and contains exactly one `Eof`. -/
def endsInExactlyOneEof (l : List Token) : Bool :=
  (l.countP (fun t => isEofTok t) == 1)
    && (match l.getLast? with
        | some t => isEofTok t
        | none => false)

/- The recursive-descent parser (parser.rs).  `Parser` is the token vector
plus a cursor; every production returns the parsed node and the new
cursor, or the first (fatal) syntax error.  `lox_error!` messages are the
Rust format strings with the single-quote characters omitted; the consume
macro prefixes `[line N]` with `N = token.line() - 1`. -/

/-- A parser abort: a line-prefixed syntax error, an internal error (token
stream exhausted inside `consume!`), a plain message, an `unreachable!`
panic, or fuel exhaustion (model artifact). -/
inductive ParseErr where
  | atLine (line : Nat) (msg : String)
  | internal (msg : String)
  | plain (msg : String)
  | panicked
  | outOfFuel
  deriving DecidableEq, Repr

/-- Token-class predicates for the constructor patterns used by the
`consume!` and `match_token!` macros. -/
def isLeftParenT : Token → Bool
  | .leftParen _ => true | _ => false

def isRightParenT : Token → Bool
  | .rightParen _ => true | _ => false

def isLeftBraceT : Token → Bool
  | .leftBrace _ => true | _ => false

def isRightBraceT : Token → Bool
  | .rightBrace _ => true | _ => false

def isCommaT : Token → Bool
  | .comma _ => true | _ => false

def isSemicolonT : Token → Bool
  | .semicolon _ => true | _ => false

def isColonT : Token → Bool
  | .colon _ => true | _ => false

def isEqualT : Token → Bool
  | .equal _ => true | _ => false

def isQuestionMarkT : Token → Bool
  | .questionMark _ => true | _ => false

def isEofT : Token → Bool
  | .eof _ => true | _ => false

def isBangOrMinusT : Token → Bool
  | .bang _ | .minus _ => true | _ => false

def isMinusOrPlusT : Token → Bool
  | .minus _ | .plus _ => true | _ => false

def isSlashOrStarT : Token → Bool
  | .slash _ | .star _ => true | _ => false

def isEqualityOpT : Token → Bool
  | .bangEqual _ | .equalEqual _ => true | _ => false

def isComparisonOpT : Token → Bool
  | .greater _ | .greaterEqual _ | .less _ | .lessEqual _ => true | _ => false

def isKwT (k : Keyword) : Token → Bool
  | .keyword t => t.keyword == k
  | _ => false

def isKwIdentT : Token → Bool
  | .keyword t =>
      match t.keyword with
      | .identifier _ => true
      | _ => false
  | _ => false

/-- Rust: the `match_token!` macro (parser.rs lines 61-93): look at the
current token, advance past it when it matches. -/
def matchToken (p : Token → Bool) (toks : List Token) (cur : Nat) :
    Option Token × Nat :=
  match toks.get? cur with
  | some t => if p t then (some t, cur + 1) else (none, cur)
  | none => (none, cur)

/-- Rust: the `consume!` macro (parser.rs lines 11-58): advance past a
matching token or abort with `[line token.line()-1] msg`; an exhausted
stream aborts with an internal error. -/
def consumeTok (p : Token → Bool) (msg : String) (toks : List Token)
    (cur : Nat) : Except ParseErr (Token × Nat) :=
  match toks.get? cur with
  | some t =>
      if p t then .ok (t, cur + 1)
      else .error (.atLine (t.line - 1) msg)
  | none => .error (.internal msg)

/-- Rust: `impl fmt::Display for Keyword` (token.rs). -/
def Keyword.display : Keyword → String
  | .and => "and"
  | .breakK => "break"
  | .continueK => "continue"
  | .classK => "class"
  | .elseK => "else"
  | .falseK => "false"
  | .fun => "fun"
  | .forK => "for"
  | .ifK => "if"
  | .nilK => "nil"
  | .or => "or"
  | .print => "print"
  | .returnK => "return"
  | .superK => "super"
  | .thisK => "this"
  | .trueK => "true"
  | .var => "var"
  | .whileK => "while"
  | .identifier s => s

/-- The assembly at the end of `Parser::for_statement` (parser.rs lines
559-575): wrap the body with the increment when one is present, build the
`While` with `in_for_loop` set unconditionally, and wrap with the
initializer when one is present. -/
def mkForStatement (initS : Option Statement) (condition : Option Expr)
    (increment : Option Expr) (body0 : Statement) : Statement :=
  match initS, increment with
  | none, none =>
      .whileS (condition.getD (.literal (.identifier .trueK))) body0 true
  | none, some incr =>
      .whileS (condition.getD (.literal (.identifier .trueK)))
        (.block [body0, .expression incr]) true
  | some i, none =>
      .block [i,
        .whileS (condition.getD (.literal (.identifier .trueK))) body0 true]
  | some i, some incr =>
      .block [i,
        .whileS (condition.getD (.literal (.identifier .trueK)))
          (.block [body0, .expression incr]) true]

/- The mutually recursive productions of `impl Parser` (parser.rs lines
105-651).  Each Rust `while let Some(op) = match_token!(...)` loop is the
corresponding `...Rest` function; `fn parse` is `parseProgram`. -/
set_option maxHeartbeats 3200000

mutual

/-- Rust: `Parser::expression`. -/
def expressionP : Nat → List Token → Nat → Except ParseErr (Expr × Nat)
  | 0, _, _ => .error .outOfFuel
  | f + 1, toks, cur => assignmentP f toks cur

termination_by structural fuel _ _ => fuel

/-- Rust: `Parser::assignment`. -/
def assignmentP : Nat → List Token → Nat → Except ParseErr (Expr × Nat)
  | 0, _, _ => .error .outOfFuel
  | f + 1, toks, cur =>
      match orP f toks cur with
      | .error e => .error e
      | .ok (expr, cur1) =>
          match matchToken isEqualT toks cur1 with
          | (some tok, cur2) =>
              match assignmentP f toks cur2 with
              | .error e => .error e
              | .ok (value, cur3) =>
                  match expr with
                  | .variable v => .ok (.assign v value, cur3)
                  | _ =>
                      .error (.atLine tok.line
                        "Error: Invalid assignment target.")
          | (none, _) => .ok (expr, cur1)

termination_by structural fuel _ _ => fuel

/-- Rust: `Parser::or`. -/
def orP : Nat → List Token → Nat → Except ParseErr (Expr × Nat)
  | 0, _, _ => .error .outOfFuel
  | f + 1, toks, cur =>
      match andP f toks cur with
      | .error e => .error e
      | .ok (expr, cur1) => orRest f toks cur1 expr

termination_by structural fuel _ _ => fuel

def orRest : Nat → List Token → Nat → Expr → Except ParseErr (Expr × Nat)
  | 0, _, _, _ => .error .outOfFuel
  | f + 1, toks, cur, expr =>
      match matchToken (isKwT .or) toks cur with
      | (some op, cur1) =>
          match andP f toks cur1 with
          | .error e => .error e
          | .ok (right, cur2) => orRest f toks cur2 (.logical expr op right)
      | (none, _) => .ok (expr, cur)

termination_by structural fuel _ _ _ => fuel

/-- Rust: `Parser::and`. -/
def andP : Nat → List Token → Nat → Except ParseErr (Expr × Nat)
  | 0, _, _ => .error .outOfFuel
  | f + 1, toks, cur =>
      match ternaryP f toks cur with
      | .error e => .error e
      | .ok (expr, cur1) => andRest f toks cur1 expr

termination_by structural fuel _ _ => fuel

def andRest : Nat → List Token → Nat → Expr → Except ParseErr (Expr × Nat)
  | 0, _, _, _ => .error .outOfFuel
  | f + 1, toks, cur, expr =>
      match matchToken (isKwT .and) toks cur with
      | (some op, cur1) =>
          match ternaryP f toks cur1 with
          | .error e => .error e
          | .ok (right, cur2) => andRest f toks cur2 (.logical expr op right)
      | (none, _) => .ok (expr, cur)

termination_by structural fuel _ _ _ => fuel

/-- Rust: `Parser::ternary` (parser.rs lines 166-182). -/
def ternaryP : Nat → List Token → Nat → Except ParseErr (Expr × Nat)
  | 0, _, _ => .error .outOfFuel
  | f + 1, toks, cur =>
      match equalityP f toks cur with
      | .error e => .error e
      | .ok (expr, cur1) => ternaryRest f toks cur1 expr

termination_by structural fuel _ _ => fuel

def ternaryRest : Nat → List Token → Nat → Expr →
    Except ParseErr (Expr × Nat)
  | 0, _, _, _ => .error .outOfFuel
  | f + 1, toks, cur, expr =>
      match matchToken isQuestionMarkT toks cur with
      | (some _, cur1) =>
          match ternaryP f toks cur1 with
          | .error e => .error e
          | .ok (trueish, cur2) =>
              match consumeTok isColonT
                  "Error: Missing : in ternary expression." toks cur2 with
              | .error e => .error e
              | .ok (_, cur3) =>
                  match ternaryP f toks cur3 with
                  | .error e => .error e
                  | .ok (falseish, cur4) =>
                      ternaryRest f toks cur4 (.ternary expr trueish falseish)
      | (none, _) => .ok (expr, cur)

termination_by structural fuel _ _ _ => fuel

/-- Rust: `Parser::equality`. -/
def equalityP : Nat → List Token → Nat → Except ParseErr (Expr × Nat)
  | 0, _, _ => .error .outOfFuel
  | f + 1, toks, cur =>
      match comparisonP f toks cur with
      | .error e => .error e
      | .ok (expr, cur1) => equalityRest f toks cur1 expr

termination_by structural fuel _ _ => fuel

def equalityRest : Nat → List Token → Nat → Expr →
    Except ParseErr (Expr × Nat)
  | 0, _, _, _ => .error .outOfFuel
  | f + 1, toks, cur, expr =>
      match matchToken isEqualityOpT toks cur with
      | (some op, cur1) =>
          match comparisonP f toks cur1 with
          | .error e => .error e
          | .ok (right, cur2) => equalityRest f toks cur2 (.binary expr op right)
      | (none, _) => .ok (expr, cur)

termination_by structural fuel _ _ _ => fuel

/-- Rust: `Parser::comparison`. -/
def comparisonP : Nat → List Token → Nat → Except ParseErr (Expr × Nat)
  | 0, _, _ => .error .outOfFuel
  | f + 1, toks, cur =>
      match termP f toks cur with
      | .error e => .error e
      | .ok (expr, cur1) => comparisonRest f toks cur1 expr

termination_by structural fuel _ _ => fuel

def comparisonRest : Nat → List Token → Nat → Expr →
    Except ParseErr (Expr × Nat)
  | 0, _, _, _ => .error .outOfFuel
  | f + 1, toks, cur, expr =>
      match matchToken isComparisonOpT toks cur with
      | (some op, cur1) =>
          match termP f toks cur1 with
          | .error e => .error e
          | .ok (right, cur2) => comparisonRest f toks cur2 (.binary expr op right)
      | (none, _) => .ok (expr, cur)

termination_by structural fuel _ _ _ => fuel

/-- Rust: `Parser::term`. -/
def termP : Nat → List Token → Nat → Except ParseErr (Expr × Nat)
  | 0, _, _ => .error .outOfFuel
  | f + 1, toks, cur =>
      match factorP f toks cur with
      | .error e => .error e
      | .ok (expr, cur1) => termRest f toks cur1 expr

termination_by structural fuel _ _ => fuel

def termRest : Nat → List Token → Nat → Expr →
    Except ParseErr (Expr × Nat)
  | 0, _, _, _ => .error .outOfFuel
  | f + 1, toks, cur, expr =>
      match matchToken isMinusOrPlusT toks cur with
      | (some op, cur1) =>
          match factorP f toks cur1 with
          | .error e => .error e
          | .ok (right, cur2) => termRest f toks cur2 (.binary expr op right)
      | (none, _) => .ok (expr, cur)

termination_by structural fuel _ _ _ => fuel

/-- Rust: `Parser::factor`. -/
def factorP : Nat → List Token → Nat → Except ParseErr (Expr × Nat)
  | 0, _, _ => .error .outOfFuel
  | f + 1, toks, cur =>
      match unaryP f toks cur with
      | .error e => .error e
      | .ok (expr, cur1) => factorRest f toks cur1 expr

termination_by structural fuel _ _ => fuel

def factorRest : Nat → List Token → Nat → Expr →
    Except ParseErr (Expr × Nat)
  | 0, _, _, _ => .error .outOfFuel
  | f + 1, toks, cur, expr =>
      match matchToken isSlashOrStarT toks cur with
      | (some op, cur1) =>
          match unaryP f toks cur1 with
          | .error e => .error e
          | .ok (right, cur2) => factorRest f toks cur2 (.binary expr op right)
      | (none, _) => .ok (expr, cur)

termination_by structural fuel _ _ _ => fuel

/-- Rust: `Parser::unary`. -/
def unaryP : Nat → List Token → Nat → Except ParseErr (Expr × Nat)
  | 0, _, _ => .error .outOfFuel
  | f + 1, toks, cur =>
      match matchToken isBangOrMinusT toks cur with
      | (some op, cur1) =>
          match unaryP f toks cur1 with
          | .error e => .error e
          | .ok (right, cur2) => .ok (.unary op right, cur2)
      | (none, _) => callP f toks cur

termination_by structural fuel _ _ => fuel

/-- Rust: `Parser::call`. -/
def callP : Nat → List Token → Nat → Except ParseErr (Expr × Nat)
  | 0, _, _ => .error .outOfFuel
  | f + 1, toks, cur =>
      match primaryP f toks cur with
      | .error e => .error e
      | .ok (expr, cur1) => callRest f toks cur1 expr

termination_by structural fuel _ _ => fuel

def callRest : Nat → List Token → Nat → Expr →
    Except ParseErr (Expr × Nat)
  | 0, _, _, _ => .error .outOfFuel
  | f + 1, toks, cur, expr =>
      match matchToken isLeftParenT toks cur with
      | (some _, cur1) =>
          match finishCall f toks cur1 expr with
          | .error e => .error e
          | .ok (expr1, cur2) => callRest f toks cur2 expr1
      | (none, _) => .ok (expr, cur)

termination_by structural fuel _ _ _ => fuel

/-- Rust: `Parser::finish_call` (parser.rs lines 280-312): the 255-argument
guard fires before each argument once 255 are already collected. -/
def finishCall : Nat → List Token → Nat → Expr →
    Except ParseErr (Expr × Nat)
  | 0, _, _, _ => .error .outOfFuel
  | f + 1, toks, cur, callee =>
      match argsClause f toks cur with
      | .error e => .error e
      | .ok (args, cur1) =>
          match consumeTok isRightParenT
              "Error: Expect ) after arguments." toks cur1 with
          | .error e => .error e
          | .ok (paren, cur2) => .ok (.call callee paren args, cur2)

termination_by structural fuel _ _ _ => fuel

/-- The argument-list step of `Parser::finish_call`: nothing on an
immediate `)` or an exhausted stream, else the collection loop anchored at
the first token of the list. -/
def argsClause : Nat → List Token → Nat → Except ParseErr (List Expr × Nat)
  | 0, _, _ => .error .outOfFuel
  | f + 1, toks, cur =>
      match toks.get? cur with
      | some token =>
          if isRightParenT token then .ok ([], cur)
          else argsLoop f toks cur [] token.line
      | none => .ok ([], cur)
termination_by structural fuel _ _ => fuel

def argsLoop : Nat → List Token → Nat → List Expr → Nat →
    Except ParseErr (List Expr × Nat)
  | 0, _, _, _, _ => .error .outOfFuel
  | f + 1, toks, cur, args, line =>
      if args.length ≥ 255 then
        .error (.atLine line "Error: Cannot have more than 255 arguments.")
      else
        match expressionP f toks cur with
        | .error e => .error e
        | .ok (e, cur1) =>
            match matchToken isCommaT toks cur1 with
            | (some _, cur2) => argsLoop f toks cur2 (args ++ [e]) line
            | (none, _) => .ok (args ++ [e], cur1)

termination_by structural fuel _ _ _ _ => fuel

/-- Rust: `Parser::primary` (parser.rs lines 314-375).  An `Eof` token
yields an EOF literal without advancing the cursor. -/
def primaryP : Nat → List Token → Nat → Except ParseErr (Expr × Nat)
  | 0, _, _ => .error .outOfFuel
  | f + 1, toks, cur =>
      match toks.get? cur with
      | some (.keyword id) =>
          match id.keyword with
          | .falseK =>
              .ok (.literal (.identifier id.keyword), cur + 1)
          | .trueK =>
              .ok (.literal (.identifier id.keyword), cur + 1)
          | .nilK =>
              .ok (.literal (.identifier id.keyword), cur + 1)
          | .identifier name => .ok (.variable name, cur + 1)
          | k =>
              .error (.atLine id.line
                ("Error: Unexpected identifier " ++ k.display ++ " encountered."))
      | some (.number num) => .ok (.literal (.number num.value), cur + 1)
      | some (.string str) => .ok (.literal (.string str.value), cur + 1)
      | some (.leftParen _) =>
          match expressionP f toks (cur + 1) with
          | .error e => .error e
          | .ok (e, cur1) =>
              match consumeTok isRightParenT "Error: Missing )." toks cur1 with
              | .error e => .error e
              | .ok (_, cur2) => .ok (.grouping e, cur2)
      | some (.eof _) => .ok (.literal .eofLit, cur)
      | some _ => .error (.plain "Unexpected token encountered.")
      | none => .error (.plain "Empty file cannot be parsed.")

termination_by structural fuel _ _ => fuel

/-- Rust: `Parser::declaration`. -/
def declarationP : Nat → List Token → Nat →
    Except ParseErr (Statement × Nat)
  | 0, _, _ => .error .outOfFuel
  | f + 1, toks, cur =>
      match matchToken (isKwT .fun) toks cur with
      | (some _, cur1) => functionDecl f toks cur1
      | (none, _) =>
          match matchToken (isKwT .var) toks cur with
          | (some _, cur1) => varDeclaration f toks cur1
          | (none, _) => statementP f toks cur

termination_by structural fuel _ _ => fuel

/-- Rust: `Parser::function` (parser.rs lines 389-439): the parameter-limit
guard fires before each parameter only once the collected count exceeds
255. -/
def functionDecl : Nat → List Token → Nat →
    Except ParseErr (Statement × Nat)
  | 0, _, _ => .error .outOfFuel
  | f + 1, toks, cur =>
      match consumeTok isKwIdentT "Error: Expected function name." toks cur with
      | .error e => .error e
      | .ok (name, cur1) =>
          match consumeTok isLeftParenT
              "Error: Expected ( after function name." toks cur1 with
          | .error e => .error e
          | .ok (_, cur2) =>
              match paramsClause f toks cur2 with
              | .error e => .error e
              | .ok (parameters, cur3) =>
                  match consumeTok isRightParenT
                      "Error: Expected ) after parameters." toks cur3 with
                  | .error e => .error e
                  | .ok (_, cur4) =>
                      match consumeTok isLeftBraceT
                          "Error: Expected \x7b before function body." toks cur4 with
                      | .error e => .error e
                      | .ok (_, cur5) =>
                          match name with
                          | .keyword k =>
                              match k.keyword with
                              | .identifier n =>
                                  match blockStmts f toks cur5 with
                                  | .error e => .error e
                                  | .ok (body, cur6) =>
                                      .ok (.function n parameters body, cur6)
                              | _ => .error .panicked
                          | _ => .error .panicked

termination_by structural fuel _ _ => fuel

/-- The parameter-list step of `Parser::function`: nothing on an immediate
`)` or an exhausted stream, else the collection loop anchored at the first
token of the list. -/
def paramsClause : Nat → List Token → Nat → Except ParseErr (List Token × Nat)
  | 0, _, _ => .error .outOfFuel
  | f + 1, toks, cur =>
      match toks.get? cur with
      | some token =>
          if isRightParenT token then .ok ([], cur)
          else paramsLoop f toks cur [] token.line
      | none => .ok ([], cur)
def paramsLoop : Nat → List Token → Nat → List Token → Nat →
    Except ParseErr (List Token × Nat)
  | 0, _, _, _, _ => .error .outOfFuel
  | f + 1, toks, cur, parameters, line =>
      if parameters.length > 255 then
        .error (.atLine line "Error: Cant have more than 255 parameters.")
      else
        match consumeTok isKwIdentT "Error: Expected parameter name."
            toks cur with
        | .error e => .error e
        | .ok (p, cur1) =>
            match matchToken isCommaT toks cur1 with
            | (some _, cur2) => paramsLoop f toks cur2 (parameters ++ [p]) line
            | (none, _) => .ok (parameters ++ [p], cur1)

termination_by structural fuel _ _ _ _ => fuel

/-- Rust: `Parser::var_declaration` (parser.rs lines 441-478). -/
def varDeclaration : Nat → List Token → Nat →
    Except ParseErr (Statement × Nat)
  | 0, _, _ => .error .outOfFuel
  | f + 1, toks, cur =>
      match toks.get? cur with
      | some (.keyword k) =>
          match k.keyword with
          | .identifier name =>
              match matchToken isEqualT toks (cur + 1) with
              | (some _, cur2) =>
                  match expressionP f toks cur2 with
                  | .error e => .error e
                  | .ok (e, cur3) =>
                      match consumeTok isSemicolonT "Error: Missing ;."
                          toks cur3 with
                      | .error e => .error e
                      | .ok (_, cur4) => .ok (.var name (some e), cur4)
              | (none, cur2) =>
                  match consumeTok isSemicolonT "Error: Missing ;."
                      toks cur2 with
                  | .error e => .error e
                  | .ok (_, cur3) => .ok (.var name none, cur3)
          | _ =>
              .error (.atLine (Token.keyword k).line
                "Error: The name of your variable cannot be a keyword.")
      | some t =>
          .error (.atLine t.line "Error: Provide a name for your variable.")
      | none =>
          match toks.getLast? with
          | some t =>
              .error (.atLine t.line "Error: Provide a name for your variable.")
          | none => .error .panicked

/-- Rust: `Parser::statement`. -/
def statementP : Nat → List Token → Nat →
    Except ParseErr (Statement × Nat)
  | 0, _, _ => .error .outOfFuel
  | f + 1, toks, cur =>
      match matchToken (isKwT .forK) toks cur with
      | (some _, cur1) => forStatement f toks cur1
      | (none, _) =>
      match matchToken (isKwT .print) toks cur with
      | (some _, cur1) => printStatement f toks cur1
      | (none, _) =>
      match matchToken (isKwT .whileK) toks cur with
      | (some _, cur1) => whileStatement f toks cur1
      | (none, _) =>
      match matchToken (isKwT .ifK) toks cur with
      | (some _, cur1) => ifStatement f toks cur1
      | (none, _) =>
      match matchToken (isKwT .breakK) toks cur with
      | (some _, cur1) => breakStatement f toks cur1
      | (none, _) =>
      match matchToken (isKwT .continueK) toks cur with
      | (some _, cur1) => continueStatement f toks cur1
      | (none, _) =>
      match matchToken isLeftBraceT toks cur with
      | (some _, cur1) =>
          match blockStmts f toks cur1 with
          | .error e => .error e
          | .ok (stmts, cur2) => .ok (.block stmts, cur2)
      | (none, _) => expressionStatement f toks cur

termination_by structural fuel _ _ => fuel

/-- Rust: `Parser::block` (parser.rs lines 511-525). -/
def blockStmts : Nat → List Token → Nat →
    Except ParseErr (List Statement × Nat)
  | 0, _, _ => .error .outOfFuel
  | f + 1, toks, cur =>
      match blockLoop f toks cur [] with
      | .error e => .error e
      | .ok (stmts, cur1) =>
          match consumeTok isRightBraceT "Error: Missing \x7d." toks cur1 with
          | .error e => .error e
          | .ok (_, cur2) => .ok (stmts, cur2)

termination_by structural fuel _ _ => fuel

def blockLoop : Nat → List Token → Nat → List Statement →
    Except ParseErr (List Statement × Nat)
  | 0, _, _, _ => .error .outOfFuel
  | f + 1, toks, cur, stmts =>
      match toks.get? cur with
      | some t =>
          if isRightBraceT t || isEofT t then .ok (stmts, cur)
          else
            match declarationP f toks cur with
            | .error e => .error e
            | .ok (s, cur1) => blockLoop f toks cur1 (stmts ++ [s])
      | none => .ok (stmts, cur)

termination_by structural fuel _ _ _ => fuel

/-- Rust: `Parser::for_statement` (parser.rs lines 527-576): desugars to a
`While` whose `in_for_loop` flag is set unconditionally; the body is
wrapped in a block with the increment only when an increment clause is
present, and wrapped with the initializer only when one is present. -/
def forStatement : Nat → List Token → Nat →
    Except ParseErr (Statement × Nat)
  | 0, _, _ => .error .outOfFuel
  | f + 1, toks, cur =>
      match consumeTok isLeftParenT "Error: Expect ( after for." toks cur with
      | .error e => .error e
      | .ok (_, cur1) =>
          match forInitClause f toks cur1 with
          | .error e => .error e
          | .ok (initS, cur2) =>
              match forCondClause f toks cur2 with
              | .error e => .error e
              | .ok (condition, cur3) =>
                  match consumeTok isSemicolonT
                      "Error: Expect ; after loop condition." toks cur3 with
                  | .error e => .error e
                  | .ok (_, cur4) =>
                      match forIncrClause f toks cur4 with
                      | .error e => .error e
                      | .ok (increment, cur5) =>
                          match consumeTok isRightParenT
                              "Error: Expect ) after for clauses." toks cur5 with
                          | .error e => .error e
                          | .ok (_, cur6) =>
                              match statementP f toks cur6 with
                              | .error e => .error e
                              | .ok (body0, cur7) =>
                                  .ok (mkForStatement initS condition
                                    increment body0, cur7)
termination_by structural fuel _ _ => fuel

/-- The initializer clause of `Parser::for_statement`: a bare `;`, a `var`
declaration, or an expression statement. -/
def forInitClause : Nat → List Token → Nat →
    Except ParseErr (Option Statement × Nat)
  | 0, _, _ => .error .outOfFuel
  | f + 1, toks, cur1 =>
      match matchToken isSemicolonT toks cur1 with
      | (some _, cur2) => .ok (none, cur2)
      | (none, _) =>
          match matchToken (isKwT .var) toks cur1 with
          | (some _, cur2) =>
              match varDeclaration f toks cur2 with
              | .error e => .error e
              | .ok (s, cur3) => .ok (some s, cur3)
          | (none, _) =>
              match expressionStatement f toks cur1 with
              | .error e => .error e
              | .ok (s, cur2) => .ok (some s, cur2)
/-- The condition clause of `Parser::for_statement`: absent before an
immediate `;` or an exhausted stream. -/
def forCondClause : Nat → List Token → Nat →
    Except ParseErr (Option Expr × Nat)
  | 0, _, _ => .error .outOfFuel
  | f + 1, toks, cur2 =>
      match toks.get? cur2 with
      | some t =>
          if isSemicolonT t then .ok (none, cur2)
          else
            match expressionP f toks cur2 with
            | .error e => .error e
            | .ok (e, cur3) => .ok (some e, cur3)
      | none => .ok (none, cur2)
/-- The increment clause of `Parser::for_statement`: absent before an
immediate `)` or an exhausted stream. -/
def forIncrClause : Nat → List Token → Nat →
    Except ParseErr (Option Expr × Nat)
  | 0, _, _ => .error .outOfFuel
  | f + 1, toks, cur4 =>
      match toks.get? cur4 with
      | some t =>
          if isRightParenT t then .ok (none, cur4)
          else
            match expressionP f toks cur4 with
            | .error e => .error e
            | .ok (e, cur5) => .ok (some e, cur5)
      | none => .ok (none, cur4)

/-- Rust: `Parser::while_statement`. -/
def whileStatement : Nat → List Token → Nat →
    Except ParseErr (Statement × Nat)
  | 0, _, _ => .error .outOfFuel
  | f + 1, toks, cur =>
      match consumeTok isLeftParenT "Error: Expected ( after while."
          toks cur with
      | .error e => .error e
      | .ok (_, cur1) =>
          match expressionP f toks cur1 with
          | .error e => .error e
          | .ok (condition, cur2) =>
              match consumeTok isRightParenT
                  "Error: Expected ) after condition." toks cur2 with
              | .error e => .error e
              | .ok (_, cur3) =>
                  match statementP f toks cur3 with
                  | .error e => .error e
                  | .ok (body, cur4) =>
                      .ok (.whileS condition body false, cur4)

termination_by structural fuel _ _ => fuel

/-- Rust: `Parser::if_statement`. -/
def ifStatement : Nat → List Token → Nat →
    Except ParseErr (Statement × Nat)
  | 0, _, _ => .error .outOfFuel
  | f + 1, toks, cur =>
      match consumeTok isLeftParenT "Error: Expected ( after if." toks cur with
      | .error e => .error e
      | .ok (_, cur1) =>
          match expressionP f toks cur1 with
          | .error e => .error e
          | .ok (condition, cur2) =>
              match consumeTok isRightParenT
                  "Error: Expected ) after if condition." toks cur2 with
              | .error e => .error e
              | .ok (_, cur3) =>
                  match statementP f toks cur3 with
                  | .error e => .error e
                  | .ok (thenBranch, cur4) =>
                      match matchToken (isKwT .elseK) toks cur4 with
                      | (some _, cur5) =>
                          match statementP f toks cur5 with
                          | .error e => .error e
                          | .ok (elseBranch, cur6) =>
                              .ok (.ifS condition thenBranch (some elseBranch),
                                cur6)
                      | (none, _) =>
                          .ok (.ifS condition thenBranch none, cur4)

termination_by structural fuel _ _ => fuel

/-- Rust: `Parser::print_statement`. -/
def printStatement : Nat → List Token → Nat →
    Except ParseErr (Statement × Nat)
  | 0, _, _ => .error .outOfFuel
  | f + 1, toks, cur =>
      match expressionP f toks cur with
      | .error e => .error e
      | .ok (value, cur1) =>
          match consumeTok isSemicolonT "Error: Missing ;." toks cur1 with
          | .error e => .error e
          | .ok (_, cur2) => .ok (.print value, cur2)

/-- Rust: `Parser::break_statement`. -/
def breakStatement : Nat → List Token → Nat →
    Except ParseErr (Statement × Nat)
  | 0, _, _ => .error .outOfFuel
  | _ + 1, toks, cur =>
      match consumeTok isSemicolonT "Error: Missing ;." toks cur with
      | .error e => .error e
      | .ok (_, cur1) => .ok (.breakS, cur1)

/-- Rust: `Parser::continue_statement`. -/
def continueStatement : Nat → List Token → Nat →
    Except ParseErr (Statement × Nat)
  | 0, _, _ => .error .outOfFuel
  | _ + 1, toks, cur =>
      match consumeTok isSemicolonT "Error: Missing ;." toks cur with
      | .error e => .error e
      | .ok (_, cur1) => .ok (.continueS, cur1)

/-- Rust: `Parser::expression_statement`: the terminator may be a
semicolon or the end-of-file token. -/
def expressionStatement : Nat → List Token → Nat →
    Except ParseErr (Statement × Nat)
  | 0, _, _ => .error .outOfFuel
  | f + 1, toks, cur =>
      match expressionP f toks cur with
      | .error e => .error e
      | .ok (e, cur1) =>
          match consumeTok (fun t => isSemicolonT t || isEofT t)
              "Error: Missing ;." toks cur1 with
          | .error e => .error e
          | .ok (_, cur2) => .ok (.expression e, cur2)

/-- Rust: `Parser::parse` (parser.rs lines 643-651): parse declarations
while the cursor is inside the token vector. -/
def parseLoop : Nat → List Token → Nat → List Statement →
    Except ParseErr (List Statement)
  | 0, _, _, _ => .error .outOfFuel
  | f + 1, toks, cur, stmts =>
      if cur < toks.length then
        match declarationP f toks cur with
        | .error e => .error e
        | .ok (s, cur1) => parseLoop f toks cur1 (stmts ++ [s])
      else .ok stmts

termination_by structural fuel _ _ _ => fuel

end

/-- Rust: `Parser::new(tokens)` followed by `parse()`. -/
def parseProgram (f : Nat) (toks : List Token) :
    Except ParseErr (List Statement) :=
  parseLoop f toks 0 []

/-- The startup global environment (environment.rs `shared_env` /
interpreter.rs `Interpreter::new`): one frame holding `clock`.  The native
body reads the wall clock; its result is modelled as an unspecified
constant, since no claim calls it. -/
def initialEnv : Environment :=
  .mk none [("clock", .function (.nativeFn 0 (.number 0)))]

/-- A fresh interpreter state. -/
def initialState : EvalState := { env := initialEnv, output := [] }

/-- Rust: `Interpreter::interpret` (interpreter.rs lines 50-54): run each
top-level statement, discarding its `Result` (so an unconsumed signal at
the top level is ignored and the next statement runs); a runtime error or
panic ends the process. -/
def interpret : Nat → List Statement → EvalState → StmtRes × EvalState
  | 0, _, st => (.outOfFuel, st)
  | _ + 1, [], st => (.ok, st)
  | f + 1, s :: rest, st =>
      match evalStmt f s st with
      | (.rt e, st1) => (.rt e, st1)
      | (.panicked, st1) => (.panicked, st1)
      | (.outOfFuel, st1) => (.outOfFuel, st1)
      | (_, st1) => interpret f rest st1

/-- Number-tagged value recognizer. -/
def isNumberV : LoxType → Bool
  | .number _ => true
  | _ => false

/-- Whether a statement is a `While` carrying the `in_for_loop` flag,
directly or under the initializer block a `for` can desugar into. -/
def forFlagSet : Statement → Bool
  | .whileS _ _ flag => flag
  | .block [_, .whileS _ _ flag] => flag
  | _ => false

/-- An identifier token, for building concrete token vectors. -/
def identTok (s : String) : Token :=
  .keyword { lexeme := s, line := 1, keyword := .identifier s }

/-- The token vector of a function declaration `fun g(p, ..., p) \x7b \x7d`
with `k` parameters, followed by the end-of-file token the scanner always
appends. -/
def funDeclToks (k : Nat) : List Token :=
  [Token.keyword ⟨"fun", 1, .fun⟩, identTok "g", .leftParen ⟨"(", 1⟩]
    ++ (List.range k).flatMap (fun i =>
        [identTok "p"] ++ (if i + 1 < k then [Token.comma ⟨",", 1⟩] else []))
    ++ [.rightParen ⟨")", 1⟩, .leftBrace ⟨"\x7b", 1⟩,
        .rightBrace ⟨"\x7d", 1⟩, .eof ⟨1⟩]

/-- The declared parameter count of the first parsed statement, when it is
a function declaration. -/
def firstFunParamCount : List Statement → Option Nat
  | .function _ ps _ :: _ => some ps.length
  | _ => none

/-- Parse a token vector and report the first declaration's parameter
count. -/
def parsedParamCount (f : Nat) (toks : List Token) : Option Nat :=
  match parseProgram f toks with
  | .ok l => firstFunParamCount l
  | .error _ => none

/-- The token vector of `for (;;) 1;` — a `for` statement with no
initializer, no condition and no increment clause. -/
def forToks : List Token :=
  [Token.keyword ⟨"for", 1, .forK⟩, .leftParen ⟨"(", 1⟩, .semicolon ⟨";", 1⟩,
   .semicolon ⟨";", 1⟩, .rightParen ⟨")", 1⟩, .number ⟨"1", 1, 1⟩,
   .semicolon ⟨";", 1⟩, .eof ⟨1⟩]

/- Theorems.  First the scanner invariants behind C3: the only place
`Scanner::next` constructs an `Eof` token also sets the `at_the_end` flag,
and a flagged scanner emits nothing further. -/

set_option maxRecDepth 100000

/-- `Scanner::number` only ever produces a `Number` token. -/
lemma scanNumber_shape (f : Nat) (st : ScanState) (t : Token) (st2 : ScanState)
    (h : scanNumber f st = .ok (t, st2)) : ∃ v, t = Token.number v := by
  unfold scanNumber at h
  repeat' split at h
  all_goals (try simp_all)
  all_goals exact ⟨_, h.1.symm⟩

/-- `Scanner::string` only ever produces a `String` token. -/
lemma scanString_shape (f : Nat) (st : ScanState) (t : Token) (st2 : ScanState)
    (h : scanString f st = .ok (some t, st2)) : ∃ v, t = Token.string v := by
  unfold scanString at h
  repeat' split at h
  all_goals (try simp_all)
  all_goals exact ⟨_, h.1.symm⟩

/-- `Scanner::identifier` only ever produces a `Keyword` token. -/
lemma scanIdentifier_shape (f : Nat) (st : ScanState) (t : Token)
    (st2 : ScanState) (h : scanIdentifier f st = .ok (t, st2)) :
    ∃ v, t = Token.keyword v := by
  unfold scanIdentifier at h
  repeat' split at h
  all_goals (try simp_all)
  all_goals exact ⟨_, h.1.symm⟩

set_option maxHeartbeats 4000000 in
/-- When `Scanner::next` emits an `Eof` token, the scanner state it leaves
behind has the `at_the_end` flag set. -/
lemma nextTokCore_eof_flag :
    ∀ (f : Nat) (st : ScanState) (t : Token) (st2 : ScanState),
    nextTokCore f st = .ok (some t, st2) → isEofTok t = true →
    st2.atTheEnd = true := by
  intro f
  induction f with
  | zero =>
      intro st t st2 h _
      exact Except.noConfusion h
  | succ f ih =>
      intro st t st2 h hEof
      rw [nextTokCore.eq_2] at h
      by_cases h1 : st.atTheEnd = true
      · rw [if_pos h1] at h
        simp at h
      · rw [if_neg h1] at h
        rcases hA : st.isAtEnd with ⟨b, stA⟩
        rw [hA] at h
        cases b
        · dsimp only at h
          rcases hAdv : stA.advance with e | ⟨c, st1⟩
          · rw [hAdv] at h
            exact Except.noConfusion h
          · rw [hAdv] at h
            dsimp only at h
            repeat' split at h
            all_goals (try (exact ih _ _ _ h hEof))
            all_goals (try (exact Except.noConfusion h))
            all_goals
              simp only [Except.ok.injEq, Prod.mk.injEq, Option.some.injEq] at h
            all_goals obtain ⟨h1, -⟩ := h
            all_goals subst h1
            all_goals
              first
                | exact Bool.noConfusion hEof
                | (obtain ⟨v, hv⟩ := scanString_shape _ _ _ _ (by assumption);
                   subst hv; exact Bool.noConfusion hEof)
                | (obtain ⟨v, hv⟩ := scanNumber_shape _ _ _ _ (by assumption);
                   subst hv; exact Bool.noConfusion hEof)
                | (obtain ⟨v, hv⟩ := scanIdentifier_shape _ _ _ _ (by assumption);
                   subst hv; exact Bool.noConfusion hEof)
        · dsimp only at h
          simp only [Except.ok.injEq, Prod.mk.injEq, Option.some.injEq] at h
          obtain ⟨-, h2⟩ := h
          subst h2
          rfl

/-- `nextTokCore_eof_flag` through the `nextTok` wrapper. -/
lemma nextTok_eof_flag (f : Nat) (st : ScanState) (t : Token) (st2 : ScanState)
    (h : nextTok f st = .ok (some t, st2)) (hEof : isEofTok t = true) :
    st2.atTheEnd = true :=
  nextTokCore_eof_flag f _ t st2 h hEof

/-- Once the `at_the_end` flag is set, iterating the scanner yields no
further tokens. -/
lemma scanToList_atEnd (f : Nat) (st : ScanState) (L : List Token)
    (hEnd : st.atTheEnd = true) (h : scanToList f st = .ok L) : L = [] := by
  match f with
  | 0 => exact Except.noConfusion h
  | g + 1 =>
      rw [scanToList.eq_2] at h
      match g with
      | 0 =>
          have hn : nextTok 0 st = .error .outOfFuel := rfl
          rw [hn] at h
          exact Except.noConfusion h
      | k + 1 =>
          have hn : nextTok (k + 1) st =
              .ok (none, { st with start := st.current }) := by
            show nextTokCore (k + 1) { st with start := st.current } = _
            rw [nextTokCore.eq_2,
              if_pos (show ({ st with start := st.current } : ScanState).atTheEnd
                = true from hEnd)]
          rw [hn] at h
          dsimp only at h
          simp only [Except.ok.injEq] at h
          exact h.symm

/-- In any completed scan, an `Eof` token occurs only in final position. -/
lemma scanToList_eofOnlyLast :
    ∀ (f : Nat) (st : ScanState) (L : List Token),
    scanToList f st = .ok L → eofOnlyLast L = true := by
  intro f
  induction f with
  | zero =>
      intro st L h
      exact Except.noConfusion h
  | succ f ih =>
      intro st L h
      rw [scanToList.eq_2] at h
      rcases hn : nextTok f st with e | ⟨ot, st1⟩
      · rw [hn] at h
        exact Except.noConfusion h
      · rw [hn] at h
        cases ot with
        | none =>
            dsimp only at h
            simp only [Except.ok.injEq] at h
            subst h
            rfl
        | some t =>
            dsimp only at h
            rcases hrest : scanToList f st1 with e | rest
            · rw [hrest] at h
              exact Except.noConfusion h
            · rw [hrest] at h
              simp only [Except.ok.injEq] at h
              subst h
              by_cases hEof : isEofTok t = true
              · have hEnd := nextTok_eof_flag f st t st1 hn hEof
                have hnil := scanToList_atEnd f st1 rest hEnd hrest
                subst hnil
                simp [eofOnlyLast, hEof]
              · have hf : isEofTok t = false := by
                  cases hEof2 : isEofTok t
                  · rfl
                  · exact absurd hEof2 hEof
                simp only [eofOnlyLast, hf, if_false]
                exact ih st1 rest hrest

/-- C3 (counterexample): iterating the scanner to exhaustion on the empty
source text yields the empty token sequence, which does not end in exactly
one end-of-file token — `Scanner::new` initializes `at_the_end` to
`source.is_empty()`, so the `Eof` branch is never reached. -/
theorem c3_empty_scan_counterexample :
    scanSource 10 [] = .ok [] ∧ endsInExactlyOneEof [] = false :=
  ⟨rfl, rfl⟩

/-- C3 (amended): on every input on which iterating the scanner to
exhaustion completes, an end-of-file token can occur only as the final
token — hence at most one `Eof`, occurring last when present.  (The
original claim that every sequence ends in exactly one `Eof` fails, e.g.
on the empty input, which scans to the empty sequence.) -/
theorem c3_scan_eof_only_last (f : Nat) (src : List Char) (L : List Token)
    (h : scanSource f src = .ok L) : eofOnlyLast L = true :=
  scanToList_eofOnlyLast f (mkScanner src) L h

/-- C3 witness: the single-character source `1` scans to a number token
followed by one final `Eof`, and that list satisfies the invariant. -/
theorem c3_scan_eof_only_last_witness :
    eofOnlyLast [Token.number { lexeme := "1", line := 1, value := 1 },
      .eof { line := 1 }] = true :=
  c3_scan_eof_only_last 100 "1".data _ rfl

/-- C7 (code bug): on `1 /***/ 2` the comment-skipping loop (`while
self.peek() != STAR && self.peek_next() != SLASH && !self.is_at_end()`)
stops at the first star of the comment body, the two following `advance`
calls swallow only two characters, and a stray `Slash` token is emitted —
the token sequence differs from that of the comment-free input `1  2`. -/
theorem c7_block_comment_mis_skip :
    scanSource 100 "1 /***/ 2".data =
      .ok [.number { lexeme := "1", line := 1, value := 1 },
        .slash { lexeme := "/", line := 1 },
        .number { lexeme := "2", line := 1, value := 2 },
        .eof { line := 1 }] ∧
    scanSource 100 "1  2".data =
      .ok [.number { lexeme := "1", line := 1, value := 1 },
        .number { lexeme := "2", line := 1, value := 2 },
        .eof { line := 1 }] :=
  ⟨rfl, rfl⟩

/-- C8 (code bug): scanning `/*` panics — the block-comment loop exits at
end of input, and the two unconditional `advance` calls that follow run
past the end of the character stream, where `chars.next().unwrap()`
unwraps `None`. -/
theorem c8_block_comment_panic :
    scanSource 100 "/*".data = .error .unwrapPanic :=
  rfl

/-- C1 (counterexample): the value `Number 0` — which carries neither the
Boolean nor the Nil tag, as the discriminants show — is falsey under
`is_truthy`, because the `Number` arm tests the numeric value against
zero. -/
theorem c1_zero_truthy_counterexample :
    LoxType.is_truthy (.number 0) = false ∧
    (LoxType.number 0).discriminant = 1 ∧
    (LoxType.boolean false).discriminant = 2 ∧
    LoxType.nil.discriminant = 3 :=
  ⟨rfl, rfl, rfl, rfl⟩

/-- C1 (amended): truthiness is decided by the Boolean and Nil tags and by
the numeric value: Boolean `b` is truthy iff `b`, Nil is falsey, a Number
is truthy iff it is nonzero (so `0` is falsey), and every other value —
the empty string included — is truthy. -/
theorem c1_is_truthy_characterization :
    (∀ b, LoxType.is_truthy (.boolean b) = b) ∧
    LoxType.is_truthy .nil = false ∧
    (∀ n : LoxNumber, LoxType.is_truthy (.number n) = decide (n ≠ 0)) ∧
    (∀ s, LoxType.is_truthy (.string s) = true) ∧
    LoxType.is_truthy .unknown = true ∧
    (∀ fn, LoxType.is_truthy (.function fn) = true) :=
  ⟨fun _ => rfl, rfl, fun _ => rfl, fun _ => rfl, rfl, fun _ => rfl⟩

/-- C4 (counterexample): two distinct callables — native functions of
arities 0 and 1 — compare equal under the interpreter's equality, because
the `PartialEq` catch-all compares discriminants only. -/
theorem c4_callable_eq_counterexample :
    loxEq (.function (.nativeFn 0 .nil)) (.function (.nativeFn 1 .nil)) = true ∧
    (LoxCallableV.nativeFn 0 .nil).arity = 0 ∧
    (LoxCallableV.nativeFn 1 .nil).arity = 1 :=
  ⟨rfl, rfl, rfl⟩

/-- C4 (amended): `==` and `!=` never raise an error — the equality arms of
the binary evaluator always return a Boolean — and equality is structural
for same-tag String/Number/Boolean pairs, true for `Nil == Nil`,
`Unknown == Unknown` and for ANY two callables (tag-only comparison), and
false for every pair with different tags. -/
theorem c4_equality_spec :
    (∀ (l r : LoxType) (tv : TokenValue),
        binaryOpEval (.equalEqual tv) l r = .val (.boolean (loxEq l r))) ∧
    (∀ (l r : LoxType) (tv : TokenValue),
        binaryOpEval (.bangEqual tv) l r = .val (.boolean (!loxEq l r))) ∧
    (∀ a b, loxEq (.string a) (.string b) = (a == b)) ∧
    (∀ a b : LoxNumber, loxEq (.number a) (.number b) = decide (a = b)) ∧
    (∀ a b, loxEq (.boolean a) (.boolean b) = (a == b)) ∧
    loxEq .nil .nil = true ∧
    loxEq .unknown .unknown = true ∧
    (∀ f g, loxEq (.function f) (.function g) = true) ∧
    (∀ l r : LoxType, l.discriminant ≠ r.discriminant → loxEq l r = false) := by
  refine ⟨fun _ _ _ => rfl, fun _ _ _ => rfl, fun _ _ => rfl, fun _ _ => rfl,
    fun _ _ => rfl, rfl, rfl, fun _ _ => rfl, ?_⟩
  intro l r hne
  cases l <;> cases r <;>
    first
      | rfl
      | (exact absurd rfl hne)

/-- C4 witness: a `Nil` and a `Boolean` carry different tags and compare
unequal. -/
theorem c4_equality_spec_witness :
    LoxType.nil.discriminant ≠ (LoxType.boolean true).discriminant ∧
    loxEq .nil (.boolean true) = false :=
  ⟨by decide, c4_equality_spec.2.2.2.2.2.2.2.2 _ _ (by decide)⟩

/-- C5: the outcome mapping of a user-function call: a body that completes
normally yields `Nil`, a `Return(Some v)` signal yields `v`, a `Return`
with no value yields `Nil`, and a `Break` or `Continue` signal reaching
the call boundary is the runtime error "Function terminated with an
unexpected token." reported with the call-site line passed in by the
`Call` evaluator (`call_expr.paren.line()`). -/
theorem c5_function_call_outcome :
    (∀ line, functionCallResult .ok line = .val .nil) ∧
    (∀ v line, functionCallResult (.sig (.returnSig (some v))) line = .val v) ∧
    (∀ line, functionCallResult (.sig (.returnSig none)) line = .val .nil) ∧
    (∀ line, functionCallResult (.sig .breakSig) line =
      .rt ⟨some line, "Function terminated with an unexpected token."⟩) ∧
    (∀ line, functionCallResult (.sig .continueSig) line =
      .rt ⟨some line, "Function terminated with an unexpected token."⟩) :=
  ⟨fun _ => rfl, fun _ _ => rfl, fun _ => rfl, fun _ => rfl, fun _ => rfl⟩

/-- C2 (counterexample): a ternary whose condition is the truthy literal
`true` still evaluates its else-branch: with `nil / nil` there, the whole
expression evaluates to the runtime error "Cannot divide NaNs" instead of
the then-branch's value `1`. -/
theorem c2_ternary_eager_counterexample :
    (LoxType.boolean true).is_truthy = true ∧
    evalExpr 10
      (.ternary (.literal (.identifier .trueK)) (.literal (.number 1))
        (.binary (.literal (.identifier .nilK)) (.slash ⟨"/", 1⟩)
          (.literal (.identifier .nilK))))
      initialState =
      (.rt ⟨some 1, "Cannot divide NaNs"⟩, initialState) :=
  ⟨rfl, rfl⟩

/-- C2 (amended): `Ternary(c, t, e)` evaluates the condition, then the
then-branch, then the else-branch, unconditionally and in that order; when
all three produce values it returns the then-value if the condition is
truthy and the else-value otherwise, and a runtime error in the
else-branch propagates even when the condition is truthy — the unselected
branch's side effects do occur. -/
theorem c2_ternary_eval_eager :
    (∀ (f : Nat) (c t e : Expr) (st : EvalState) (vc vt vf : LoxType)
        (st1 st2 st3 : EvalState),
        evalExpr f c st = (.val vc, st1) →
        evalExpr f t st1 = (.val vt, st2) →
        evalExpr f e st2 = (.val vf, st3) →
        evalExpr (f + 1) (.ternary c t e) st =
          ((if vc.is_truthy then ExprRes.val vt else .val vf), st3)) ∧
    (∀ (f : Nat) (c t e : Expr) (st : EvalState) (vc vt : LoxType)
        (st1 st2 st3 : EvalState) (er : RuntimeError),
        evalExpr f c st = (.val vc, st1) →
        evalExpr f t st1 = (.val vt, st2) →
        evalExpr f e st2 = (.rt er, st3) →
        evalExpr (f + 1) (.ternary c t e) st = (.rt er, st3)) := by
  constructor
  · intro f c t e st vc vt vf st1 st2 st3 h1 h2 h3
    rw [evalExpr.eq_17, h1]
    dsimp only
    rw [h2]
    dsimp only
    rw [h3]
    dsimp only
    split <;> rfl
  · intro f c t e st vc vt st1 st2 st3 er h1 h2 h3
    rw [evalExpr.eq_17, h1]
    dsimp only
    rw [h2]
    dsimp only
    rw [h3]

/-- C2 witness: with a truthy condition and two literal branches the
amended rule gives the then-value. -/
theorem c2_ternary_eval_eager_witness :
    evalExpr 2 (.ternary (.literal (.identifier .trueK))
      (.literal (.number 1)) (.literal (.number 2))) initialState =
      ((if (LoxType.boolean true).is_truthy then ExprRes.val (.number 1)
        else .val (.number 2)), initialState) :=
  c2_ternary_eval_eager.1 1 _ _ _ initialState _ _ _ _ _ _ rfl rfl rfl

/-- C10: the `Slash` arm of the binary evaluator errors exactly when an
operand is not a Number: two Numbers always divide without error — a zero
divisor included, the quotient being the value model's total division —
and any other operand pair is the runtime error "Cannot divide NaNs" at
the operator's line; the third conjunct ties the arm to `Expr::eval`,
which evaluates both operands and combines them with `binaryOpEval`. -/
theorem c10_slash_eval :
    (∀ (a b : LoxNumber) (tv : TokenValue),
        binaryOpEval (.slash tv) (.number a) (.number b) =
          .val (.number (a / b))) ∧
    (∀ (l r : LoxType) (tv : TokenValue),
        (isNumberV l = false ∨ isNumberV r = false) →
        binaryOpEval (.slash tv) l r =
          .rt ⟨some (Token.slash tv).line, "Cannot divide NaNs"⟩) ∧
    (∀ (f : Nat) (left right : Expr) (op : Token) (st : EvalState)
        (vl : LoxType) (st1 : EvalState) (vr : LoxType) (st2 : EvalState),
        evalExpr f left st = (.val vl, st1) →
        evalExpr f right st1 = (.val vr, st2) →
        evalExpr (f + 1) (.binary left op right) st =
          (binaryOpEval op vl vr, st2)) := by
  refine ⟨fun _ _ _ => rfl, ?_, ?_⟩
  · intro l r tv h
    cases l <;> cases r <;>
      first
        | rfl
        | (rcases h with h | h <;> exact Bool.noConfusion h)
  · intro f left right op st vl st1 vr st2 h1 h2
    rw [evalExpr.eq_3, h1]
    dsimp only
    rw [h2]

/-- C10 witness: dividing the Number 1 by the Number 0 yields a Number and
no error, while dividing a String by a Number is the runtime error. -/
theorem c10_slash_eval_witness :
    binaryOpEval (.slash ⟨"/", 7⟩) (.number 1) (.number 0) =
      .val (.number (1 / 0)) ∧
    isNumberV (.string "x") = false ∧
    binaryOpEval (.slash ⟨"/", 7⟩) (.string "x") (.number 2) =
      .rt ⟨some (Token.slash ⟨"/", 7⟩).line, "Cannot divide NaNs"⟩ :=
  ⟨c10_slash_eval.1 1 0 ⟨"/", 7⟩, rfl,
   c10_slash_eval.2.1 (.string "x") (.number 2) ⟨"/", 7⟩ (Or.inl rfl)⟩

/-- C6 (code bug): the parameter-limit guard in `Parser::function` is
`parameters.len() > 255`, checked before each parameter is pushed, so it
first fires when 256 parameters have already been collected: a declaration
with 256 parameters parses successfully (contradicting the parser's own
"Cant have more than 255 parameters." message and the spec's limit), and
only a declaration with 257 parameters is rejected. -/
theorem c6_param_limit_off_by_one :
    parsedParamCount 600 (funDeclToks 256) = some 256 ∧
    parseProgram 600 (funDeclToks 257) =
      .error (.atLine 1 "Error: Cant have more than 255 parameters.") :=
  ⟨rfl, rfl⟩

/-- Every result `Parser::for_statement` assembles carries the
`in_for_loop` flag set. -/
lemma forFlagSet_mkForStatement (i : Option Statement) (c : Option Expr)
    (n : Option Expr) (b : Statement) :
    forFlagSet (mkForStatement i c n b) = true := by
  cases i <;> cases n <;> rfl

/-- C9: first, every successfully parsed `for` statement — with or without
an increment clause — produces a `While` whose `in_for_loop` flag is true
(under the initializer block when an initializer is present); second, when
the loop body is a `Block` and an iteration ends in a `Continue` signal,
the evaluator with that flag set evaluates the block's last statement one
extra time (discarding everything but a runtime error, panic or fuel
exhaustion there) and only then re-enters the loop to re-test the
condition.  When the `for` was written without an increment clause, that
last statement is the last user-written statement of the body. -/
theorem c9_for_continue :
    (∀ (f : Nat) (toks : List Token) (cur : Nat) (s : Statement) (cur2 : Nat),
        forStatement f toks cur = .ok (s, cur2) → forFlagSet s = true) ∧
    (∀ (f : Nat) (cond : Expr) (bs : List Statement)
        (st st1 st2 st3 : EvalState) (vc : LoxType) (s : Statement)
        (r2 : StmtRes),
        evalExpr f cond st = (.val vc, st1) →
        vc.is_truthy = true →
        evalStmt f (.block bs) st1 = (.sig .continueSig, st2) →
        bs.getLast? = some s →
        evalStmt f s st2 = (r2, st3) →
        (r2 = .ok ∨ ∃ sg, r2 = .sig sg) →
        evalWhileLoop (f + 1) cond (.block bs) true st =
          evalWhileLoop f cond (.block bs) true st3) := by
  constructor
  · intro f toks cur s cur2 h
    match f with
    | 0 => exact Except.noConfusion h
    | g + 1 =>
        rw [forStatement.eq_2] at h
        repeat' split at h
        all_goals (try (exact Except.noConfusion h))
        all_goals simp only [Except.ok.injEq, Prod.mk.injEq] at h
        all_goals obtain ⟨h1, -⟩ := h
        all_goals subst h1
        all_goals exact forFlagSet_mkForStatement _ _ _ _
  · intro f cond bs st st1 st2 st3 vc s r2 h1 h2 h3 h4 h5 h6
    rw [evalWhileLoop.eq_2, h1]
    dsimp only
    rw [h2, if_pos rfl, h3]
    dsimp only
    rw [h4]
    dsimp only
    rw [h5]
    rcases h6 with rfl | ⟨sg, rfl⟩
    · rfl
    · cases sg <;> rfl

/-- C9 witness: the for statement `for (;;) 1;` (no increment clause)
parses to a flagged `While`, and one flagged loop step over the body
`[continue, break]` — whose evaluation signals `Continue` — equals
evaluating the block's last statement (the `break`, whose signal is
discarded) and re-entering the loop. -/
theorem c9_for_continue_witness :
    forFlagSet (.whileS (.literal (.identifier .trueK))
      (.expression (.literal (.number 1))) true) = true ∧
    evalWhileLoop 4 (.literal (.identifier .trueK))
      (.block [.continueS, .breakS]) true initialState =
      evalWhileLoop 3 (.literal (.identifier .trueK))
        (.block [.continueS, .breakS]) true initialState :=
  ⟨c9_for_continue.1 600 forToks 1 _ 7 rfl,
   c9_for_continue.2 3 _ _ initialState initialState initialState initialState
     (.boolean true) .breakS (.sig .breakSig) rfl rfl rfl rfl rfl
     (Or.inr ⟨.breakSig, rfl⟩)⟩

end Lox
